import Mathlib

/-!
Verification of the staleness-detection state machine of the
`skill-discuss-for-specs` hooks.

The definitions below are a shallow embedding of the Python sources:

* `src/hooks/common/snapshot_manager.py` — snapshot store, directory
  scanner and the staleness comparator `compare_and_update`;
* `src/hooks/common/platform_utils.py` — platform detection and hook
  output shaping;
* `src/hooks/stop/check_precipitation.py` — the conversation-end hook
  orchestrator (`main`), its workspace-root resolution and the stale
  reminder formatter.

Modification times are modelled as integers (only their linear order is
ever used by the code); filesystem effects are modelled by passing the
observed directory contents and stat outcomes explicitly; a stat that
raises `OSError` is modelled as `none`.
-/

set_option autoImplicit false

namespace SkillDiscuss

/-! ### Data model (snapshot_manager.py) -/

/-- One `{name, mtime}` entry of a `decisions`/`notes` list. -/
structure FileEntry where
  name : String
  mtime : Int
  deriving DecidableEq, Repr

/-- The `outline` sub-state: `{"mtime": ..., "change_count": ...}`. -/
structure OutlineState where
  mtime : Int
  change_count : Int
  deriving DecidableEq, Repr

/-- State dictionary as produced by `scan_discussion`: every key present. -/
structure ScanState where
  outline : OutlineState
  decisions : List FileEntry
  notes : List FileEntry
  deriving DecidableEq, Repr

/-- A previously stored state, as read back from the snapshot.  Any of the
keys may be missing; the empty dictionary `{}` is `⟨none, none, none⟩`. -/
structure OldState where
  outline : Option OutlineState
  decisions : Option (List FileEntry)
  notes : Option (List FileEntry)
  deriving DecidableEq, Repr

/-- The empty prior state `old_state = {}`. -/
def emptyOldState : OldState := ⟨none, none, none⟩

/-- `DEFAULT_STALE_THRESHOLD = 3`. -/
def DEFAULT_STALE_THRESHOLD : Int := 3

/-! ### `_normalize_file_list` -/

/-- Python tuple comparison `(name, mtime) <= (name', mtime')`:
lexicographic on the string, then the number. -/
def pairLe (a b : String × Int) : Bool :=
  decide (a.1 < b.1) || (a.1 == b.1 && decide (a.2 ≤ b.2))

/-- Insert into a sorted list of `(name, mtime)` pairs. -/
def insertPair (x : String × Int) : List (String × Int) → List (String × Int)
  | [] => [x]
  | y :: ys => if pairLe x y then x :: y :: ys else y :: insertPair x ys

/-- `sorted(...)` on `(name, mtime)` tuples. -/
def sortPairs : List (String × Int) → List (String × Int)
  | [] => []
  | x :: xs => insertPair x (sortPairs xs)

/-- `_normalize_file_list`: map each entry to a `(name, mtime)` tuple and
sort the result. -/
def normalize_file_list (file_list : List FileEntry) : List (String × Int) :=
  sortPairs (file_list.map (fun item => (item.name, item.mtime)))

/-! ### `compare_and_update` -/

/-- `old_state.get("outline", {}).get("change_count", 0)`. -/
def old_change_count_of (old_state : OldState) : Int :=
  match old_state.outline with
  | some o => o.change_count
  | none => 0

/-- `old_state.get("outline", {}).get("mtime", 0.0)`. -/
def old_outline_mtime_of (old_state : OldState) : Int :=
  match old_state.outline with
  | some o => o.mtime
  | none => 0

/-- `compare_and_update(old_state, new_state)`: returns the updated
`change_count` together with the mutated `new_state` (the Python function
writes `new_state["outline"]["change_count"]` in place and returns the
count). -/
def compare_and_update (old_state : OldState) (new_state : ScanState) : Int × ScanState :=
  let old_change_count := old_change_count_of old_state
  let old_outline_mtime := old_outline_mtime_of old_state
  let new_outline_mtime := new_state.outline.mtime
  let old_decisions := normalize_file_list (old_state.decisions.getD [])
  let new_decisions := normalize_file_list new_state.decisions
  let old_notes := normalize_file_list (old_state.notes.getD [])
  let new_notes := normalize_file_list new_state.notes
  if old_decisions ≠ new_decisions ∨ old_notes ≠ new_notes then
    (0, { new_state with outline := { new_state.outline with change_count := 0 } })
  else if new_outline_mtime > old_outline_mtime then
    (old_change_count + 1,
      { new_state with outline := { new_state.outline with change_count := old_change_count + 1 } })
  else if new_outline_mtime < old_outline_mtime then
    (old_change_count,
      { new_state with outline := { new_state.outline with change_count := old_change_count } })
  else
    (old_change_count,
      { new_state with outline := { new_state.outline with change_count := old_change_count } })

/-! ### `scan_discussion` -/

/-- A directory entry as seen by `glob("*.md")`; `statResult = none`
models `stat()` raising `OSError` (file deleted between listing and
stat). -/
structure DirFileEntry where
  name : String
  statResult : Option Int
  deriving DecidableEq, Repr

/-- Observed contents of one discussion directory.
`outline = none` means `outline.md` does not exist; `outline = some none`
means it exists but `stat()` raises; `decisions`/`notes = none` means the
subdirectory is absent (or not a directory). -/
structure DiscussDir where
  outline : Option (Option Int)
  decisions : Option (List DirFileEntry)
  notes : Option (List DirFileEntry)
  deriving DecidableEq, Repr

/-- The per-file body of the scan loops: append `{name, mtime}` on a
successful stat, `continue` silently on `OSError`. -/
def statEntry (f : DirFileEntry) : Option FileEntry :=
  f.statResult.map (fun m => { name := f.name, mtime := m })

/-- `scan_discussion(discuss_dir)`: outline mtime 0 when the file is
absent or stat fails, empty lists for absent subdirectories, and each
individual stat failure skipped. -/
def scan_discussion (discuss_dir : DiscussDir) : ScanState :=
  { outline :=
      { mtime := match discuss_dir.outline with
          | some (some m) => m
          | _ => 0,
        change_count := 0 },
    decisions := (discuss_dir.decisions.getD []).filterMap statEntry,
    notes := (discuss_dir.notes.getD []).filterMap statEntry }

/-! ### Snapshot store (`load_snapshot`, `create_default_snapshot`,
`cleanup_deleted_discussions`) -/

/-- The `config` mapping after loading (always has `stale_threshold`). -/
structure SnapshotConfig where
  stale_threshold : Int
  deriving DecidableEq, Repr

/-- A loaded snapshot: `version`, `config` and the discussions map
(modelled as an association list keyed by the discussion key). -/
structure Snapshot where
  version : Int
  config : SnapshotConfig
  discussions : List (String × OldState)
  deriving DecidableEq, Repr

/-- `config` as it may occur in the raw YAML document (key optional). -/
structure RawConfig where
  stale_threshold : Option Int
  deriving DecidableEq, Repr

/-- A parsed YAML mapping before the structure-ensuring fixup: any of the
top-level keys may be missing. -/
structure RawSnapshot where
  version : Option Int
  config : Option RawConfig
  discussions : Option (List (String × OldState))
  deriving DecidableEq, Repr

/-- Outcome of trying to read and parse `.discuss/.snapshot.yaml`. -/
inductive SnapshotRead where
  /-- The snapshot file does not exist. -/
  | absent
  /-- Opening or reading the file raised. -/
  | readError
  /-- `yaml.safe_load` raised a parse error. -/
  | parseError
  /-- The document parsed to a falsy value (e.g. YAML `null`), so
  `yaml.safe_load(f) or {}` yields the empty mapping. -/
  | nullDoc
  /-- The document parsed to a truthy non-mapping (list, string, number):
  the subsequent key assignment raises `TypeError`, which is caught. -/
  | nonMapping
  /-- The document parsed to a mapping. -/
  | mapping (doc : RawSnapshot)
  deriving DecidableEq, Repr

/-- `create_default_snapshot()`. -/
def create_default_snapshot : Snapshot :=
  { version := 1,
    config := { stale_threshold := DEFAULT_STALE_THRESHOLD },
    discussions := [] }

/-- The "ensure structure" block of `load_snapshot`: fill in any missing
`version`, `config`, `discussions` and `stale_threshold` keys. -/
def ensure_structure (doc : RawSnapshot) : Snapshot :=
  { version := doc.version.getD 1,
    config :=
      { stale_threshold :=
          ((doc.config.getD { stale_threshold := none }).stale_threshold).getD
            DEFAULT_STALE_THRESHOLD },
    discussions := doc.discussions.getD [] }

/-- `load_snapshot(discuss_root)`: default structure when the file is
absent, unreadable, unparsable or not a mapping; otherwise the parsed
document with missing keys filled in. -/
def load_snapshot : SnapshotRead → Snapshot
  | .absent => create_default_snapshot
  | .readError => create_default_snapshot
  | .parseError => create_default_snapshot
  | .nullDoc => ensure_structure { version := none, config := none, discussions := none }
  | .nonMapping => create_default_snapshot
  | .mapping doc => ensure_structure doc

/-- `cleanup_deleted_discussions(snapshot, discuss_root)`: drop entries
whose directory no longer exists; also returns the removal count. -/
def cleanup_deleted_discussions (snapshot : Snapshot) (dirExists : String → Bool) :
    Snapshot × Nat :=
  let kept := snapshot.discussions.filter (fun kv => dirExists kv.1)
  ({ snapshot with discussions := kept },
    snapshot.discussions.length - kept.length)

/-! ### Platform utilities (platform_utils.py) -/

/-- Supported AI platforms. -/
inductive Platform where
  | claude_code
  | cursor
  | unknown
  deriving DecidableEq, Repr

/-- The stdin JSON payload, restricted to the keys the hooks inspect.
`none` models an absent key.  `tool_input_present` models the presence of
the `tool_input` key (only its presence is tested by `detect_platform`).
`workspace_roots` and `workspaceRoots` are the two multi-root key
spellings exercised by the repository's workspace-detection tests; the
shipped hook code never reads them. -/
structure InputData where
  tool_name : Option String := none
  hook_event_name : Option String := none
  file_path : Option String := none
  tool_input_present : Bool := false
  status : Option String := none
  stop_hook_active : Option Bool := none
  workspace_roots : Option (List String) := none
  workspaceRoots : Option (List String) := none
  deriving Repr

/-- Substring test on character lists, used to model Python's
`"completed" in str(...)`. -/
def strHasSub (needle : List Char) : List Char → Bool
  | [] => needle.isEmpty
  | c :: rest => needle.isPrefixOf (c :: rest) || strHasSub needle rest

/-- `detect_platform(input_data)`: Claude Code keys are checked first,
then the two Cursor patterns. -/
def detect_platform (input_data : InputData) : Platform :=
  if input_data.tool_name.isSome || input_data.hook_event_name.isSome then
    Platform.claude_code
  else if input_data.file_path.isSome && !input_data.tool_input_present then
    Platform.cursor
  else if input_data.status.isSome &&
      strHasSub "completed".data (input_data.status.getD "").data then
    Platform.cursor
  else
    Platform.unknown

/-- `is_stop_hook_active(input_data)`:
`input_data.get("stop_hook_active", False)`. -/
def is_stop_hook_active (input_data : InputData) : Bool :=
  input_data.stop_hook_active.getD false

/-- The JSON object written to stdout, one constructor per shape the code
can emit. -/
inductive HookOutput where
  /-- The empty object, allowing the operation to continue. -/
  | allowEmpty
  /-- Cursor block shape: a single `followup_message` field. -/
  | cursorFollowup (message : String)
  /-- Claude Code block shape: `decision: "block"` with a `reason`. -/
  | claudeBlock (reason : String)
  /-- Generic fallback shape: a single `message` field. -/
  | genericMessage (message : String)
  deriving DecidableEq, Repr

/-- `format_output_allow()`: the empty JSON object. -/
def format_output_allow : HookOutput := HookOutput.allowEmpty

/-- `format_output_block(message, platform)`. -/
def format_output_block (message : String) (platform : Platform) : HookOutput :=
  match platform with
  | Platform.cursor => HookOutput.cursorFollowup message
  | Platform.claude_code => HookOutput.claudeBlock message
  | Platform.unknown => HookOutput.genericMessage message

/-! ### Conversation-end hook (check_precipitation.py) -/

/-- `get_workspace_root()`: try the environment variables
`WORKSPACE_ROOT`, `PROJECT_ROOT`, `PWD` in order, then fall back to the
current working directory.  The function takes no hook input. -/
def get_workspace_root (env : String → Option String) (cwd : String) : String :=
  match env "WORKSPACE_ROOT" with
  | some v => v
  | none =>
    match env "PROJECT_ROOT" with
    | some v => v
    | none =>
      match env "PWD" with
      | some v => v
      | none => cwd

/-- `format_stale_reminder(discuss_key, change_count, threshold, is_force)`. -/
def format_stale_reminder (discuss_key : String) (change_count : Int)
    (threshold : Int) (is_force : Bool) : String :=
  let header :=
    if is_force then
      "## ⚠️ Precipitation Required\n\n" ++
        "The discussion outline has been updated multiple times, but decisions/notes haven't been updated:\n\n"
    else
      "## 💡 Precipitation Suggestion\n\n" ++
        "The discussion outline has been updated, but decisions/notes may need updating:\n\n"
  let items_text :=
    "- Discussion: `" ++ discuss_key ++ "`\n" ++
      "- Outline changes without updates: " ++ toString change_count ++
      " (threshold: " ++ toString threshold ++ ")\n"
  let footer :=
    "\n📁 Discussion: `.discuss/" ++ discuss_key ++ "`\n" ++
      (if is_force then
        "\n**Please update the discussion files before continuing.**\n" ++
          "This ensures important decisions are properly documented.\n"
      else
        "\nWould you like me to help update the decisions/notes?\n" ++
          "This helps maintain a complete record of our discussion.\n")
  header ++ items_text ++ footer

/-- The staleness verdict of `main` for one discussion (lines 205-208):
no reminder below the threshold, otherwise suggest, escalating to force
at `force_threshold`. -/
inductive Verdict where
  | noReminder
  | suggest
  | force
  deriving DecidableEq, Repr

/-- The reminder decision of `main` for a single discussion:
`change_count >= threshold` appends a reminder whose severity is force
exactly when `change_count >= force_threshold`. -/
def reminder_verdict (change_count threshold force_threshold : Int) : Verdict :=
  if change_count ≥ threshold then
    if change_count ≥ force_threshold then Verdict.force else Verdict.suggest
  else Verdict.noReminder

/-- The separator `main` uses to join multiple stale reminders. -/
def stale_separator : String := "\n\n---\n\n"

/-- The tail of `main` (lines 224-243): join the collected
`(reminder, is_force)` pairs and emit the output block; both the force
and the non-force branch call `block_and_exit` with the same combined
message, and an empty list falls through to `allow_and_exit()`. -/
def emit_stale_response (stale_reminders : List (String × Bool))
    (platform : Platform) : HookOutput :=
  if stale_reminders.isEmpty then format_output_allow
  else
    let has_force := stale_reminders.any (fun r => r.2)
    let combined_reminder :=
      String.intercalate stale_separator (stale_reminders.map (fun r => r.1))
    if has_force then format_output_block combined_reminder platform
    else format_output_block combined_reminder platform

/-- Observed filesystem state below one candidate workspace root, as the
hook would encounter it. -/
structure WorkspaceFs where
  discussExists : Bool
  snapshotRead : SnapshotRead
  activeDiscussions : List (String × DiscussDir)
  dirExists : String → Bool

/-- The full environment of one hook invocation: stdin payload,
environment variables, working directory, and the filesystem as a
function of the chosen workspace root. -/
structure HookEnv where
  stdin : Option InputData
  envVars : String → Option String
  cwd : String
  fs : String → WorkspaceFs

/-- Result of one hook run: the JSON written to stdout, the exit code,
and the snapshot passed to `save_snapshot` (`none` when `save_snapshot`
is never reached). -/
structure RunResult where
  output : HookOutput
  exitCode : Nat
  savedSnapshot : Option Snapshot
  deriving Repr

/-- `snapshot.get("discussions", {}).get(discuss_key, {})`. -/
def lookup_discussion (snapshot : Snapshot) (key : String) : OldState :=
  match snapshot.discussions.find? (fun kv => kv.1 == key) with
  | some kv => kv.2
  | none => emptyOldState

/-- `snapshot["discussions"][discuss_key] = new_state`. -/
def set_discussion (snapshot : Snapshot) (key : String) (st : OldState) : Snapshot :=
  { snapshot with
      discussions :=
        if snapshot.discussions.any (fun kv => kv.1 == key) then
          snapshot.discussions.map (fun kv => if kv.1 == key then (key, st) else kv)
        else
          snapshot.discussions ++ [(key, st)] }

/-- A scanned state stored back into the snapshot (all keys present). -/
def old_of_scan (st : ScanState) : OldState :=
  { outline := some st.outline,
    decisions := some st.decisions,
    notes := some st.notes }

/-- Workspace root as resolved by `main`: it calls
`get_workspace_root()` with no arguments, so only the environment and
the working directory take part. -/
def resolved_workspace_root (env : HookEnv) : String :=
  get_workspace_root env.envVars env.cwd

/-- Loop body of `main` over the active discussions: look up the old
state, scan, run the comparator, store the updated state, and collect a
`(reminder, is_force)` pair when the count reaches the threshold. -/
def process_discussion (threshold force_threshold : Int)
    (acc : Snapshot × List (String × Bool)) (kd : String × DiscussDir) :
    Snapshot × List (String × Bool) :=
  let key := kd.1
  let old_state := lookup_discussion acc.1 key
  let new_state := scan_discussion kd.2
  let result := compare_and_update old_state new_state
  let change_count := result.1
  let snap := set_discussion acc.1 key (old_of_scan result.2)
  if change_count ≥ threshold then
    let is_force := decide (change_count ≥ force_threshold)
    (snap, acc.2 ++ [(format_stale_reminder key change_count threshold is_force, is_force)])
  else
    (snap, acc.2)

/-- `main()` of check_precipitation.py: reentry guard, workspace-root
resolution, snapshot load, per-discussion comparison, cleanup, save, and
the final output block.  Every path exits with code 0. -/
def run_main (env : HookEnv) : RunResult :=
  let platform :=
    match env.stdin with
    | some d => detect_platform d
    | none => Platform.unknown
  if (match env.stdin with
      | some d => is_stop_hook_active d
      | none => false) then
    { output := format_output_allow, exitCode := 0, savedSnapshot := none }
  else
    let workspace_root := resolved_workspace_root env
    let fsView := env.fs workspace_root
    if !fsView.discussExists then
      { output := format_output_allow, exitCode := 0, savedSnapshot := none }
    else
      let snapshot := load_snapshot fsView.snapshotRead
      let threshold := snapshot.config.stale_threshold
      let force_threshold := threshold * 2
      if fsView.activeDiscussions.isEmpty then
        { output := format_output_allow, exitCode := 0, savedSnapshot := none }
      else
        let folded :=
          fsView.activeDiscussions.foldl
            (process_discussion threshold force_threshold) (snapshot, [])
        let cleaned := (cleanup_deleted_discussions folded.1 fsView.dirExists).1
        { output := emit_stale_response folded.2 platform,
          exitCode := 0,
          savedSnapshot := some cleaned }

/-! ### Claim theorems -/

/-- C1: whenever the normalized decisions list or the normalized notes
list differs between the old and the new state, `compare_and_update`
returns 0 and stores 0 into the new state's outline change count,
regardless of how the outline mtime moved. -/
theorem C1_decisions_notes_reset (old_state : OldState) (new_state : ScanState)
    (h : normalize_file_list (old_state.decisions.getD []) ≠ normalize_file_list new_state.decisions ∨
      normalize_file_list (old_state.notes.getD []) ≠ normalize_file_list new_state.notes) :
    (compare_and_update old_state new_state).1 = 0 ∧
      (compare_and_update old_state new_state).2.outline.change_count = 0 := by
  unfold compare_and_update
  rw [if_pos h]
  exact ⟨rfl, rfl⟩

/-- C1 witness: a concrete pair with a decisions difference resets the
count to 0. -/
theorem C1_witness :
    (compare_and_update emptyOldState
      { outline := { mtime := 9, change_count := 4 },
        decisions := [{ name := "D01-a.md", mtime := 1 }], notes := [] }).1 = 0 ∧
    (compare_and_update emptyOldState
      { outline := { mtime := 9, change_count := 4 },
        decisions := [{ name := "D01-a.md", mtime := 1 }], notes := [] }).2.outline.change_count = 0 :=
  C1_decisions_notes_reset emptyOldState
    { outline := { mtime := 9, change_count := 4 },
      decisions := [{ name := "D01-a.md", mtime := 1 }], notes := [] }
    (Or.inl (by decide))

/-- C2: when the normalized decisions and notes lists are unchanged,
`compare_and_update` returns the old count plus one if the outline mtime
strictly increased, and exactly the old count if it is equal or smaller. -/
theorem C2_outline_counting (old_state : OldState) (new_state : ScanState)
    (h1 : normalize_file_list (old_state.decisions.getD []) = normalize_file_list new_state.decisions)
    (h2 : normalize_file_list (old_state.notes.getD []) = normalize_file_list new_state.notes) :
    (old_outline_mtime_of old_state < new_state.outline.mtime →
      (compare_and_update old_state new_state).1 = old_change_count_of old_state + 1) ∧
    (new_state.outline.mtime ≤ old_outline_mtime_of old_state →
      (compare_and_update old_state new_state).1 = old_change_count_of old_state) := by
  unfold compare_and_update
  rw [if_neg (by push_neg; exact ⟨h1, h2⟩)]
  constructor
  · intro hlt
    rw [if_pos hlt]
  · intro hle
    rw [if_neg (by omega)]
    rcases lt_or_eq_of_le hle with hlt | heq
    · rw [if_pos hlt]
    · rw [if_neg (by omega)]

/-- C2 witness: unchanged lists with an increased outline mtime increment
the stored count from 2 to 3. -/
theorem C2_witness :
    (compare_and_update
      { outline := some { mtime := 100, change_count := 2 },
        decisions := some [{ name := "D01-a.md", mtime := 50 }], notes := some [] }
      { outline := { mtime := 200, change_count := 0 },
        decisions := [{ name := "D01-a.md", mtime := 50 }], notes := [] }).1 =
      old_change_count_of
        { outline := some { mtime := 100, change_count := 2 },
          decisions := some [{ name := "D01-a.md", mtime := 50 }], notes := some [] } + 1 :=
  (C2_outline_counting
    { outline := some { mtime := 100, change_count := 2 },
      decisions := some [{ name := "D01-a.md", mtime := 50 }], notes := some [] }
    { outline := { mtime := 200, change_count := 0 },
      decisions := [{ name := "D01-a.md", mtime := 50 }], notes := [] }
    (by decide) (by decide)).1 (by decide)

/-- C3 counterexample: a scanned state with outline mtime 5 > 0 but a
nonempty decisions list, compared against the empty prior state `{}`,
yields change count 0, not 1: the decisions reset fires because the
empty old list differs from the scanned one. -/
theorem C3_counterexample :
    ({ outline := { mtime := 5, change_count := 0 },
       decisions := [{ name := "D01-topic.md", mtime := 3 }],
       notes := [] } : ScanState).outline.mtime > 0 ∧
    (compare_and_update emptyOldState
      { outline := { mtime := 5, change_count := 0 },
        decisions := [{ name := "D01-topic.md", mtime := 3 }],
        notes := [] }).1 ≠ 1 := by
  decide

/-- C3 amended: with an empty prior state `{}` the old change count and
old outline mtime are treated as 0, and when the scanned state has no
decisions and no notes files and an outline mtime greater than 0, the
first observation returns change count 1. -/
theorem C3_first_observation (new_state : ScanState)
    (hdec : new_state.decisions = []) (hnotes : new_state.notes = [])
    (hmt : 0 < new_state.outline.mtime) :
    old_change_count_of emptyOldState = 0 ∧
    old_outline_mtime_of emptyOldState = 0 ∧
    (compare_and_update emptyOldState new_state).1 = 1 := by
  refine ⟨rfl, rfl, ?_⟩
  have h := (C2_outline_counting emptyOldState new_state
    (by simp [emptyOldState, hdec]) (by simp [emptyOldState, hnotes])).1
  simpa [old_change_count_of, old_outline_mtime_of, emptyOldState] using
    h (by simpa [old_outline_mtime_of, emptyOldState] using hmt)

/-- C3 witness: an outline-only discussion seen for the first time gets
change count 1. -/
theorem C3_witness :
    old_change_count_of emptyOldState = 0 ∧
    old_outline_mtime_of emptyOldState = 0 ∧
    (compare_and_update emptyOldState
      { outline := { mtime := 7, change_count := 0 }, decisions := [], notes := [] }).1 = 1 :=
  C3_first_observation
    { outline := { mtime := 7, change_count := 0 }, decisions := [], notes := [] }
    rfl rfl (by decide)

/-- C4: with `force_threshold = threshold * 2` as `main` derives it, the
verdict is suggest exactly when `threshold ≤ change_count < 2 * threshold`,
force exactly when `change_count ≥ 2 * threshold`, and no reminder when
`change_count ≤ threshold - 1`. -/
theorem C4_threshold_boundaries (change_count threshold : Int) (hpos : 0 < threshold) :
    (reminder_verdict change_count threshold (threshold * 2) = Verdict.suggest ↔
      threshold ≤ change_count ∧ change_count < 2 * threshold) ∧
    (reminder_verdict change_count threshold (threshold * 2) = Verdict.force ↔
      2 * threshold ≤ change_count) ∧
    (change_count ≤ threshold - 1 →
      reminder_verdict change_count threshold (threshold * 2) = Verdict.noReminder) := by
  unfold reminder_verdict
  split_ifs with h1 h2
  · exact ⟨iff_of_false (by decide) (by omega), iff_of_true rfl (by omega),
      fun h => absurd h (by omega)⟩
  · exact ⟨iff_of_true rfl (by omega), iff_of_false (by decide) (by omega),
      fun h => absurd h (by omega)⟩
  · exact ⟨iff_of_false (by decide) (by omega), iff_of_false (by decide) (by omega),
      fun _ => rfl⟩

/-- C4 witness: at `change_count = threshold = 3` the verdict is
suggest. -/
theorem C4_witness : reminder_verdict 3 3 (3 * 2) = Verdict.suggest :=
  (C4_threshold_boundaries 3 3 (by decide)).1.mpr (by decide)

/-- C5: a run whose only stale reminder is suggest-level (`is_force =
false`, so `has_force` is false) still produces the Claude Code blocking
shape `{"decision": "block", ...}` — the non-force branch of `main`
emits exactly the same output block as the force branch, contradicting
the claim (and the code's own comment) that a suggest-only run merely
informs. -/
theorem C5_suggest_only_run_still_blocks :
    ([(format_stale_reminder "2026-01-28/topic" 3 3 false, false)].any (fun r => r.2)) = false ∧
    emit_stale_response
        [(format_stale_reminder "2026-01-28/topic" 3 3 false, false)] Platform.claude_code =
      HookOutput.claudeBlock (format_stale_reminder "2026-01-28/topic" 3 3 false) :=
  ⟨rfl, rfl⟩

/-- C6: `main` resolves the workspace root without ever consulting the
stdin payload: with a payload carrying `workspace_roots = ["/stdin-ws"]`
and the tool-specific variable `CURSOR_PROJECT_DIR = "/env-ws"` set, the
resolved root is the generic `PWD` value, not the payload root and not
the tool-specific variable. -/
theorem C6_stdin_roots_ignored :
    resolved_workspace_root
      { stdin := some { status := some "completed", workspace_roots := some ["/stdin-ws"] },
        envVars := fun k =>
          if k = "CURSOR_PROJECT_DIR" then some "/env-ws"
          else if k = "PWD" then some "/pwd-dir"
          else none,
        cwd := "/cwd",
        fs := fun _ =>
          { discussExists := false, snapshotRead := SnapshotRead.absent,
            activeDiscussions := [], dirExists := fun _ => false } } = "/pwd-dir" ∧
    ("/pwd-dir" : String) ≠ "/stdin-ws" ∧
    ("/pwd-dir" : String) ≠ "/env-ws" := by
  exact ⟨rfl, by decide, by decide⟩

/-- C7: `load_snapshot` returns the default snapshot structure (version
1, stale threshold 3, empty discussions map) when the snapshot file is
absent, unreadable, unparsable, not a mapping, or parses to a null
document; no read outcome propagates an error. -/
theorem C7_load_snapshot_never_fails :
    load_snapshot SnapshotRead.absent = create_default_snapshot ∧
    load_snapshot SnapshotRead.readError = create_default_snapshot ∧
    load_snapshot SnapshotRead.parseError = create_default_snapshot ∧
    load_snapshot SnapshotRead.nonMapping = create_default_snapshot ∧
    load_snapshot SnapshotRead.nullDoc = create_default_snapshot ∧
    create_default_snapshot =
      { version := 1, config := { stale_threshold := 3 }, discussions := [] } :=
  ⟨rfl, rfl, rfl, rfl, rfl, rfl⟩

/-- C8: `scan_discussion` yields an empty decisions/notes list when the
corresponding subdirectory is absent, outline mtime 0 when `outline.md`
is absent, and dropping a file whose stat fails leaves the scan of the
remaining files unchanged (the failure is skipped silently). -/
theorem C8_scan_discussion_robust (d : DiscussDir) (f : DirFileEntry)
    (pre post : List DirFileEntry) (hf : f.statResult = none) :
    (d.decisions = none → (scan_discussion d).decisions = []) ∧
    (d.notes = none → (scan_discussion d).notes = []) ∧
    (d.outline = none → (scan_discussion d).outline.mtime = 0) ∧
    scan_discussion { d with decisions := some (pre ++ f :: post) } =
      scan_discussion { d with decisions := some (pre ++ post) } ∧
    scan_discussion { d with notes := some (pre ++ f :: post) } =
      scan_discussion { d with notes := some (pre ++ post) } := by
  refine ⟨?_, ?_, ?_, ?_, ?_⟩
  · intro h; simp [scan_discussion, h]
  · intro h; simp [scan_discussion, h]
  · intro h; simp [scan_discussion, h]
  · simp [scan_discussion, List.filterMap_append, statEntry, hf]
  · simp [scan_discussion, List.filterMap_append, statEntry, hf]

/-- C8 witness: a file whose stat raises is skipped, leaving the scan of
the surviving file intact. -/
theorem C8_witness :
    scan_discussion
      { outline := none,
        decisions := some [{ name := "a.md", statResult := some 4 },
          { name := "gone.md", statResult := none }],
        notes := none } =
    scan_discussion
      { outline := none,
        decisions := some [{ name := "a.md", statResult := some 4 }],
        notes := none } :=
  (C8_scan_discussion_robust { outline := none, decisions := none, notes := none }
    { name := "gone.md", statResult := none }
    [{ name := "a.md", statResult := some 4 }] [] rfl).2.2.2.1

/-- C9: when the stdin payload has `stop_hook_active` set, `main`
short-circuits to the empty allow output with exit code 0 before any
scanning or snapshot write — the result is the same constant for every
filesystem, so no snapshot is saved. -/
theorem C9_reentry_short_circuit (env : HookEnv) (d : InputData)
    (hstdin : env.stdin = some d) (hactive : is_stop_hook_active d = true) :
    run_main env =
      { output := HookOutput.allowEmpty, exitCode := 0, savedSnapshot := none } := by
  unfold run_main
  rw [hstdin]
  simp [hactive, format_output_allow]

/-- C9 witness: a reentrant invocation over a workspace that does have an
active discussion still yields the empty allow response and no snapshot
write. -/
theorem C9_witness :
    run_main
      { stdin := some { hook_event_name := some "Stop", stop_hook_active := some true },
        envVars := fun _ => none,
        cwd := "/workspace",
        fs := fun _ =>
          { discussExists := true, snapshotRead := SnapshotRead.absent,
            activeDiscussions :=
              [("2026-01-28/topic",
                { outline := some (some 50), decisions := some [], notes := some [] })],
            dirExists := fun _ => true } } =
      { output := HookOutput.allowEmpty, exitCode := 0, savedSnapshot := none } :=
  C9_reentry_short_circuit _ _ rfl rfl

/-- C10: on an unknown platform the block output is the generic
single-field `message` object (distinct from the empty allow object and
from both tool-specific shapes), and `detect_platform` classifies any
input carrying a Claude Code key as Claude Code, regardless of which
Cursor keys are also present. -/
theorem C10_unknown_shape_and_priority (msg : String) (d : InputData)
    (h : d.tool_name.isSome = true ∨ d.hook_event_name.isSome = true) :
    format_output_block msg Platform.unknown = HookOutput.genericMessage msg ∧
    format_output_block msg Platform.unknown ≠ HookOutput.allowEmpty ∧
    (∀ m, format_output_block msg Platform.unknown ≠ HookOutput.cursorFollowup m) ∧
    (∀ m, format_output_block msg Platform.unknown ≠ HookOutput.claudeBlock m) ∧
    detect_platform d = Platform.claude_code := by
  refine ⟨rfl, by simp [format_output_block], fun m => by simp [format_output_block],
    fun m => by simp [format_output_block], ?_⟩
  unfold detect_platform
  rcases h with h | h <;> simp [h]

/-- C10 witness: an input carrying both Claude Code keys and both Cursor
patterns is classified as Claude Code, and the unknown-platform output
for a sample message is the generic shape. -/
theorem C10_witness :
    format_output_block "reminder" Platform.unknown = HookOutput.genericMessage "reminder" ∧
    format_output_block "reminder" Platform.unknown ≠ HookOutput.allowEmpty ∧
    (∀ m, format_output_block "reminder" Platform.unknown ≠ HookOutput.cursorFollowup m) ∧
    (∀ m, format_output_block "reminder" Platform.unknown ≠ HookOutput.claudeBlock m) ∧
    detect_platform
      { tool_name := some "Edit", hook_event_name := some "Stop",
        file_path := some "/tmp/f.md", status := some "completed" } =
      Platform.claude_code :=
  C10_unknown_shape_and_priority "reminder"
    { tool_name := some "Edit", hook_event_name := some "Stop",
      file_path := some "/tmp/f.md", status := some "completed" }
    (Or.inl rfl)

end SkillDiscuss
